import Mathlib

/-!
Verification of the AI-generated-text detection engine
(`backend/app/services/ai_detection.py`, class `AIDetectionService`).

Text is modelled as `List Char`; scores are exact rationals (the Python
source computes with floats, here every ratio, threshold and rounding is
carried out exactly over `ℚ`).  The regular expressions of the source are
interpreted by a small executable matcher supporting exactly the constructs
the source's patterns use: literal strings, alternation, `.*` and `\b`.
-/

namespace AIDetect

abbrev Text := List Char

/-- Python whitespace for `str.strip()` / `str.split()` (ASCII range). -/
def isPySpace (c : Char) : Bool :=
  c = ' ' || c = '\t' || c = '\n' || c = '\r' || c = '\x0b' || c = '\x0c'

/-- Python `str.strip()`: remove whitespace from both ends. -/
def pyStrip (t : Text) : Text :=
  ((t.dropWhile isPySpace).reverse.dropWhile isPySpace).reverse

/-- The maximal runs of characters satisfying `p`, in order; characters not
satisfying `p` separate runs and are dropped. -/
def runsOf (p : Char → Bool) : Text → List Text
  | [] => []
  | c :: rest =>
    if p c then
      match rest with
      | [] => [[c]]
      | d :: _ =>
        if p d then
          match runsOf p rest with
          | g :: gs => (c :: g) :: gs
          | [] => [[c]]
        else [c] :: runsOf p rest
    else runsOf p rest

/-- Python `str.split()` with no argument: maximal non-whitespace runs. -/
def pySplitWs (t : Text) : List Text := runsOf (fun c => !isPySpace c) t

/-- Python `\w` on ASCII text: letters, digits, underscore. -/
def isWordChar (c : Char) : Bool := c.isAlphanum || c = '_'

/-- `re.findall(r'\b\w+\b', text)`: the maximal `\w` runs of the text. -/
def wordRuns (t : Text) : List Text := runsOf isWordChar t

/-- A sentence-terminating character of the split pattern `[.!?]+`. -/
def isSentPunct (c : Char) : Bool := c = '.' || c = '!' || c = '?'

/-- `re.split(r'[.!?]+', text)`: split on maximal runs of `.`, `!`, `?`,
keeping empty pieces exactly as Python's `re.split` does. -/
def reSplitPunct : Text → List Text
  | [] => [[]]
  | c :: rest =>
    if isSentPunct c then
      match rest with
      | [] => [] :: reSplitPunct rest
      | d :: _ =>
        if isSentPunct d then reSplitPunct rest
        else [] :: reSplitPunct rest
    else
      match reSplitPunct rest with
      | g :: gs => (c :: g) :: gs
      | [] => [[c]]

/-- Python `str.lower()` (ASCII case mapping). -/
def lowerText (t : Text) : Text := t.map Char.toLower

/-- `[s.strip() for s in re.split(r'[.!?]+', text) if s.strip()]` — the
sentence list shared by the analyzers. -/
def sentSplit (t : Text) : List Text :=
  ((reSplitPunct t).map pyStrip).filter (fun s => !s.isEmpty)

/-- Python `text.split('\n\n')`: split on the literal two-newline separator,
scanning left to right, non-overlapping, keeping empty pieces. -/
def splitOnDoubleNL : Text → List Text
  | [] => [[]]
  | '\n' :: '\n' :: rest => [] :: splitOnDoubleNL rest
  | c :: rest =>
    match splitOnDoubleNL rest with
    | g :: gs => (c :: g) :: gs
    | [] => [[c]]

/-- `[p.strip() for p in text.split('\n\n') if p.strip()]` — paragraph list. -/
def paraSplit (t : Text) : List Text :=
  ((splitOnDoubleNL t).map pyStrip).filter (fun s => !s.isEmpty)

/-- `string.punctuation` from the Python standard library. -/
def pyPunctuationChars : Text :=
  "!\"#$%&\x27()*+,-./:;<=>?@[\\]^_\x60\x7b|\x7d~".data

/-- Python `word.strip(string.punctuation)`: remove those characters from
both ends of the token. -/
def stripPunct (w : Text) : Text :=
  ((w.dropWhile (fun c => pyPunctuationChars.contains c)).reverse.dropWhile
      (fun c => pyPunctuationChars.contains c)).reverse

/-! ### Lexicons (`AIDetectionService.__init__`) -/

/-- `self.ai_transitions` (source lines 34-38). -/
def aiTransitions : List Text :=
  (["however", "furthermore", "moreover", "additionally", "consequently",
    "therefore", "thus", "hence", "nevertheless", "nonetheless",
    "meanwhile", "subsequently", "accordingly", "likewise", "similarly"]).map
    String.data

/-- `self.ai_buzzwords` (source lines 41-47). -/
def aiBuzzwords : List Text :=
  (["leverage", "optimize", "utilize", "facilitate", "implement",
    "demonstrate", "indicate", "comprehensive", "significant",
    "substantial", "optimal", "crucial", "vital", "essential",
    "robust", "seamless", "innovative", "revolutionize", "enhance",
    "streamline", "dynamic", "versatile", "efficient", "effective"]).map
    String.data

/-- `formal_words` of `_analyze_vocabulary` (source lines 206-210). -/
def formalWords : List Text :=
  (["utilize", "facilitate", "implement", "demonstrate", "indicate",
    "comprehensive", "significant", "substantial", "optimal", "crucial",
    "moreover", "furthermore", "subsequently", "consequently",
    "nevertheless"]).map String.data

/-! ### A small regular-expression matcher

The source's patterns use only: literal text, alternation `(a|b|…)`,
`.*` (any run of non-newline characters) and the word-boundary assertion
`\b`.  `re.search` truthiness is existence of a match anywhere, which is what
`reSearch` decides.  The matcher is written in continuation-passing style;
`matchREk r prev s k` tries to match `r` at the start of `s` (where `prev`
is the character just before `s` in the full text, for `\b`) and calls `k`
on every way to continue. -/

inductive RE where
  | lit (cs : Text)
  | seq (a b : RE)
  | alt (a b : RE)
  | anyStar
  | bnd

/-- Match a literal prefix; returns the new preceding character and rest. -/
def matchLit : Text → Option Char → Text → Option (Option Char × Text)
  | [], p, s => some (p, s)
  | _ :: _, _, [] => none
  | c :: cs, _, d :: ds => if c = d then matchLit cs (some d) ds else none

/-- `\b`: exactly one side of the position is a word character
(start/end of text count as non-word). -/
def wordBoundary (p : Option Char) (s : Text) : Bool :=
  let pw := match p with | some c => isWordChar c | none => false
  let nw := match s with | d :: _ => isWordChar d | [] => false
  pw != nw

/-- `.*`: try every split point; `.` does not match a newline. -/
def starK (p : Option Char) (s : Text) (k : Option Char → Text → Bool) : Bool :=
  k p s ||
    match s with
    | [] => false
    | c :: rest => if c = '\n' then false else starK (some c) rest k

def matchREk : RE → Option Char → Text → (Option Char → Text → Bool) → Bool
  | .lit cs, p, s, k =>
    match matchLit cs p s with
    | some (p2, s2) => k p2 s2
    | none => false
  | .seq a b, p, s, k => matchREk a p s (fun p2 s2 => matchREk b p2 s2 k)
  | .alt a b, p, s, k => matchREk a p s k || matchREk b p s k
  | .anyStar, p, s, k => starK p s k
  | .bnd, p, s, k => wordBoundary p s && k p s

/-- Try a match at the current position or at any later one. -/
def searchFrom (r : RE) (p : Option Char) (s : Text) : Bool :=
  matchREk r p s (fun _ _ => true) ||
    match s with
    | [] => false
    | c :: rest => searchFrom r (some c) rest

/-- `re.search(r, s)` truthiness. -/
def reSearch (r : RE) (s : Text) : Bool := searchFrom r none s

/-- A literal-phrase regex. -/
def strLit (s : String) : RE := .lit s.data

/-- Alternation of literal phrases `(a|b|…)`. -/
def altOf : List String → RE
  | [] => .lit []
  | [s] => strLit s
  | s :: rest => .alt (strLit s) (altOf rest)

/-- `\b(…)\b` around a regex. -/
def wbWrap (r : RE) : RE := .seq .bnd (.seq r .bnd)

/-! The fourteen patterns of `self.ai_patterns` (source lines 16-31),
written lowercase because `_check_ai_patterns` searches `text.lower()`
(the `re.IGNORECASE` flag adds nothing on the lowercased text for these
literal patterns). -/

def aiPat1 : RE :=
  wbWrap (altOf ["as an ai", "i am an ai", "i'm an ai", "language model",
    "ai assistant"])

def aiPat2 : RE :=
  wbWrap (.seq (altOf ["i don't have", "i cannot", "i can't"])
    (.seq (strLit " ")
      (altOf ["personal", "opinions", "feelings", "emotions", "access"])))

def aiPat3 : RE :=
  wbWrap (altOf ["it's important to note", "it's worth noting",
    "it should be noted"])

def aiPat4 : RE :=
  wbWrap (altOf ["in conclusion", "to summarize", "in summary", "to sum up"])

def aiPat5 : RE :=
  wbWrap (altOf ["delve into", "dive into", "exploring", "understanding",
    "navigating"])

def aiPat6 : RE :=
  wbWrap (altOf ["embark on", "journey into", "landscape of", "realm of",
    "world of"])

def aiPat7 : RE :=
  wbWrap (altOf ["comprehensive guide", "step-by-step", "detailed overview"])

def aiPat8 : RE :=
  wbWrap (altOf ["ensure that", "make sure", "it is crucial", "vital to"])

def aiPat9 : RE :=
  wbWrap (.alt (.seq (strLit "ranging from ") (.seq .anyStar (strLit " to")))
    (.seq (strLit "from ") (.seq .anyStar (.seq (strLit " to ") .anyStar))))

def aiPat10 : RE :=
  wbWrap (altOf ["whether you're", "whether it's", "regardless of"])

def aiPat11 : RE :=
  wbWrap (altOf ["first and foremost", "last but not least"])

def aiPat12 : RE :=
  wbWrap (altOf ["pros and cons", "advantages and disadvantages"])

def aiPat13 : RE :=
  wbWrap (altOf ["cutting-edge", "state-of-the-art", "revolutionary"])

def aiPat14 : RE :=
  wbWrap (altOf ["game-changer", "paradigm shift", "transforms the way"])

/-- `self.ai_patterns`. -/
def aiPatterns : List RE :=
  [aiPat1, aiPat2, aiPat3, aiPat4, aiPat5, aiPat6, aiPat7, aiPat8, aiPat9,
   aiPat10, aiPat11, aiPat12, aiPat13, aiPat14]

/-! ### Rounding

Python's `round(x, n)` rounds half to even.  Over exact rationals that is
`bankerRound (x * 10^n) / 10^n` with `bankerRound` rounding to the nearest
integer, ties to the even one. -/

/-- Round to the nearest integer, ties to even. -/
def bankerRound (x : ℚ) : ℤ :=
  let f : ℤ := ⌊x⌋
  let frac : ℚ := x - (f : ℚ)
  if 1 / 2 < frac then f + 1
  else if frac < 1 / 2 then f
  else if f % 2 = 0 then f else f + 1

/-- Python `round(x, 2)`. -/
def pyRound2 (x : ℚ) : ℚ := ((bankerRound (x * 100) : ℤ) : ℚ) / 100

/-- Python `round(x, 1)`. -/
def pyRound1 (x : ℚ) : ℚ := ((bankerRound (x * 10) : ℤ) : ℚ) / 10

/-! ### The five analyzers -/

/-- `_check_ai_patterns` (source lines 116-143): number of the fourteen
`ai_patterns` that match, boosted by transition-word density over the
whitespace-split tokens of the lowercased text. -/
def check_ai_patterns (t : Text) : ℚ :=
  let tl := lowerText t
  let patternMatches : Nat := aiPatterns.countP (fun r => reSearch r tl)
  let patScore : ℚ :=
    if 0 < patternMatches then min ((patternMatches : ℚ) * (25 / 100)) (8 / 10)
    else 0
  let ws := pySplitWs tl
  let transScore : ℚ :=
    if ws.isEmpty then 0
    else
      let transitionCount : Nat :=
        ws.countP (fun w => aiTransitions.contains (stripPunct w))
      let density : ℚ := (transitionCount : ℚ) / (ws.length : ℚ)
      if 8 / 100 ≤ density then min (density * 3) (5 / 10)
      else if 5 / 100 ≤ density then 2 / 10
      else 0
  min (patScore + transScore) 1

/-- `_analyze_structure` (source lines 145-181).  The source compares
`cv = sqrt(variance) / avg` (set to `1.0` when `avg = 0`) against `0.30`
and `0.40`; since all quantities are nonnegative, `cv < c` is equivalent to
`0 < avg ∧ variance < c^2 * avg^2`, which is the exact form used here. -/
def analyze_structure (t : Text) : ℚ :=
  let sentences := sentSplit t
  if sentences.length < 2 then 2 / 10
  else
    let lengthsN : List Nat := sentences.map (fun s => (pySplitWs s).length)
    let lengths : List ℚ := lengthsN.map (fun l => (l : ℚ))
    let n : ℚ := (lengths.length : ℚ)
    let avg : ℚ := lengths.sum / n
    let variance : ℚ := (lengths.map (fun l => (l - avg) ^ 2)).sum / n
    let cvScore : ℚ :=
      if 0 < avg ∧ variance < (3 / 10) ^ 2 * avg ^ 2 then 6 / 10
      else if 0 < avg ∧ variance < (4 / 10) ^ 2 * avg ^ 2 then 4 / 10
      else 1 / 10
    let mediumCount : Nat := lengthsN.countP (fun l => 12 ≤ l && l ≤ 20)
    let mediumShare : ℚ := (mediumCount : ℚ) / n
    let mediumScore : ℚ :=
      if 6 / 10 < mediumShare then 4 / 10
      else if 4 / 10 < mediumShare then 2 / 10
      else 0
    min (cvScore + mediumScore) 1

/-- The elements of `l` not seen yet, keeping first occurrences in order
(`seen` collects the elements already emitted). -/
def firstOccsAux : List Text → List Text → List Text
  | [], _ => []
  | x :: xs, seen =>
    if seen.contains x then firstOccsAux xs seen
    else x :: firstOccsAux xs (x :: seen)

/-- The distinct elements of a list, first occurrences in order (the keys of
a Python `Counter` built from the list). -/
def firstOccs (l : List Text) : List Text := firstOccsAux l []

/-- Number of occurrences of `a` in `l` (a `Counter` lookup). -/
def countOcc (l : List Text) (a : Text) : Nat := l.countP (fun x => x == a)

/-- `_analyze_vocabulary` (source lines 183-224). -/
def analyze_vocabulary (t : Text) : ℚ :=
  let ws := wordRuns (lowerText t)
  if ws.length < 10 then 2 / 10
  else
    let diversity : ℚ := ((firstOccs ws).length : ℚ) / (ws.length : ℚ)
    let buzzwordCount : Nat := ws.countP (fun w => aiBuzzwords.contains w)
    let buzzwordShare : ℚ := (buzzwordCount : ℚ) / (ws.length : ℚ)
    let buzzScore : ℚ :=
      if 3 / 100 < buzzwordShare then 5 / 10
      else if 2 / 100 < buzzwordShare then 3 / 10
      else if 1 / 100 < buzzwordShare then 15 / 100
      else 0
    let formalCount : Nat := ws.countP (fun w => formalWords.contains w)
    let formalShare : ℚ := (formalCount : ℚ) / (ws.length : ℚ)
    let formalScore : ℚ :=
      if 4 / 100 < formalShare then 4 / 10
      else if 2 / 100 < formalShare then 2 / 10
      else 0
    let diversityScore : ℚ :=
      if 45 / 100 ≤ diversity ∧ diversity ≤ 65 / 100 then 3 / 10 else 0
    min (buzzScore + formalScore + diversityScore) 1

/-- The punctuation density of `_analyze_consistency` (source lines
232-234): count of `,`, `;`, `:` over the whitespace-token count, `0` when
there are no tokens. -/
def punctDensityOf (t : Text) : ℚ :=
  let punctuationCount : Nat :=
    t.countP (fun c => c = ',') + t.countP (fun c => c = ';') +
      t.countP (fun c => c = ':')
  let wordsCount : Nat := (pySplitWs t).length
  if 0 < wordsCount then (punctuationCount : ℚ) / (wordsCount : ℚ) else 0

/-- The punctuation-density bonus of `_analyze_consistency` (source lines
237-240): the narrow band `[0.08, 0.15]` gives `0.5`, otherwise the wide
band `[0.05, 0.18]` gives `0.25`. -/
def punctBonus (d : ℚ) : ℚ :=
  if 8 / 100 ≤ d ∧ d ≤ 15 / 100 then 5 / 10
  else if 5 / 100 ≤ d ∧ d ≤ 18 / 100 then 25 / 100
  else 0

/-- The paragraph-uniformity bonus of `_analyze_consistency` (source lines
243-255); the coefficient-of-variation comparisons are in the same squared
form as in `analyze_structure` (`cv` is `1.0` when the mean is `0`). -/
def paraBonusOf (t : Text) : ℚ :=
  let paragraphs := paraSplit t
  if 1 < paragraphs.length then
    let paraLengthsN : List Nat := paragraphs.map (fun p => (pySplitWs p).length)
    let paraLengths : List ℚ := paraLengthsN.map (fun l => (l : ℚ))
    let n : ℚ := (paraLengths.length : ℚ)
    let avg : ℚ := paraLengths.sum / n
    let paraVar : ℚ := (paraLengths.map (fun l => (l - avg) ^ 2)).sum / n
    if 0 < avg ∧ paraVar < (25 / 100) ^ 2 * avg ^ 2 then 5 / 10
    else if 0 < avg ∧ paraVar < (4 / 10) ^ 2 * avg ^ 2 then 3 / 10
    else 0
  else 0

/-- `_analyze_consistency` (source lines 226-257).  (The source also binds
the sentence list on line 229 but never uses it.) -/
def analyze_consistency (t : Text) : ℚ :=
  min (punctBonus (punctDensityOf t) + paraBonusOf t) 1

/-- First word of a sentence, lowercased
(`s.split()[0].lower() if s.split() else ''`, source line 269). -/
def firstOpener (s : Text) : Text :=
  match pySplitWs s with
  | [] => []
  | w :: _ => lowerText w

/-- The within-sentence bigrams of one sentence, as `"w1 w2"` strings over
the lowercased whitespace-split words (source lines 280-283). -/
def bigramsOfSentence (s : Text) : List Text :=
  let ws := pySplitWs (lowerText s)
  (ws.zip ws.tail).map (fun p => p.1 ++ [' '] ++ p.2)

/-- All within-sentence bigrams of the text, in order. -/
def allBigramsOf (t : Text) : List Text :=
  ((sentSplit t).map bigramsOfSentence).flatten

/-- The repeated-opener contribution of `_check_repetition` (source lines
269-276): a flat `0.3` as soon as some opener occurs more than twice. -/
def openerBonus (starts : List Text) : ℚ :=
  if (firstOccs starts).any (fun w => decide (2 < countOcc starts w))
  then 3 / 10 else 0

/-- The repeated-bigram contribution of `_check_repetition` (source lines
279-289). -/
def bigramBonus (sentences : List Text) : ℚ :=
  let bigrams := (sentences.map bigramsOfSentence).flatten
  if bigrams.isEmpty then 0
  else
    let repeated : Nat :=
      (firstOccs bigrams).countP (fun b => decide (2 < countOcc bigrams b))
    if 0 < repeated then min ((repeated : ℚ) * (2 / 10)) (5 / 10) else 0

/-- `_check_repetition` (source lines 259-291). -/
def check_repetition (t : Text) : ℚ :=
  let sentences := sentSplit t
  if sentences.length < 3 then 0
  else min (openerBonus (sentences.map firstOpener) + bigramBonus sentences) 1

/-! ### Indicators (`_get_indicators`, source lines 293-354)

Each constructor stands for one of the indicator strings the source emits,
with the interpolated values as payload:
- `selfRef`: `"❌ Contains explicit AI self-reference phrases"`
- `hedging`: `"⚠️ Uses common AI hedging phrases"`
- `metaphor`: `"⚠️ Uses AI-typical metaphorical language"`
- `buzzwords n`: `"⚠️ High usage of AI buzzwords (n instances)"`
- `transitions p`: `"⚠️ Excessive formal transition words (p%)"`
- `uniformStructure`: `"⚠️ Unnaturally consistent sentence structure"`
- `balancedParagraphs`: `"⚠️ Uniformly balanced paragraph lengths"`
- `repetitiveOpenings w n`: `"⚠️ Repetitive sentence openings ('w' used n times)"`
- `noStrong`: `"✓ No strong AI indicators detected"` -/

inductive Indicator where
  | selfRef
  | hedging
  | metaphor
  | buzzwords (count : Nat)
  | transitions (pct : ℚ)
  | uniformStructure
  | balancedParagraphs
  | repetitiveOpenings (word : Text) (count : Nat)
  | noStrong
deriving DecidableEq

/-- The self-reference regex of `_get_indicators` (source line 300):
`\b(as an AI|I am an AI|language model|AI assistant)\b` — note that,
unlike `ai_patterns[0]`, it has no `I'm an AI` alternative. -/
def indSelfRefRE : RE :=
  wbWrap (altOf ["as an ai", "i am an ai", "language model", "ai assistant"])

/-- The hedging regex of `_get_indicators` (source line 303). -/
def indHedgingRE : RE :=
  wbWrap (altOf ["it's important to note", "it's worth noting",
    "it should be noted"])

/-- The metaphor regex of `_get_indicators` (source line 306). -/
def indMetaphorRE : RE :=
  wbWrap (altOf ["delve into", "dive into", "embark on", "journey into",
    "landscape of"])

/-- Maximum of a list of naturals (`max` over a Counter's values). -/
def listMaxNat : List Nat → Nat
  | [] => 0
  | x :: xs => xs.foldl max x

/-- Minimum of a list of naturals. -/
def listMinNat : List Nat → Nat
  | [] => 0
  | x :: xs => xs.foldl min x

/-- Python `max(counter, key=counter.get)`: the first key, in first-occurrence
order, whose count is maximal. -/
def argmaxFirst (l : List Text) : Text :=
  ((firstOccs l).find?
      (fun k => countOcc l k == listMaxNat ((firstOccs l).map (countOcc l)))).getD
    []

/-- The explicit-self-reference check of `_get_indicators`
(source lines 300-301). -/
def indSelfOf (t : Text) : List Indicator :=
  if reSearch indSelfRefRE (lowerText t) then [Indicator.selfRef] else []

/-- The hedging-phrase check of `_get_indicators` (source lines 303-304). -/
def indHedgeOf (t : Text) : List Indicator :=
  if reSearch indHedgingRE (lowerText t) then [Indicator.hedging] else []

/-- The metaphor-cluster check of `_get_indicators` (source lines 306-307). -/
def indMetaOf (t : Text) : List Indicator :=
  if reSearch indMetaphorRE (lowerText t) then [Indicator.metaphor] else []

/-- The buzzword-density check of `_get_indicators` (source lines 310-314). -/
def indBuzzOf (t : Text) : List Indicator :=
  let ws := pySplitWs (lowerText t)
  if ws.isEmpty then []
  else
    let buzzwordCount : Nat :=
      ws.countP (fun w => aiBuzzwords.contains (stripPunct w))
    if 2 / 100 < ((buzzwordCount : ℚ) / (ws.length : ℚ))
    then [Indicator.buzzwords buzzwordCount] else []

/-- The transition-density check of `_get_indicators` (source lines 317-321). -/
def indTransOf (t : Text) : List Indicator :=
  let ws := pySplitWs (lowerText t)
  if ws.isEmpty then []
  else
    let transitionCount : Nat :=
      ws.countP (fun w => aiTransitions.contains (stripPunct w))
    let density : ℚ := (transitionCount : ℚ) / (ws.length : ℚ)
    if 7 / 100 < density then [Indicator.transitions (pyRound1 (density * 100))]
    else []

/-- The structural-uniformity check of `_get_indicators` (source lines
324-333), with the coefficient-of-variation comparison in the same squared
form as in `analyze_structure`. -/
def indStructOf (t : Text) : List Indicator :=
  let sentences := sentSplit t
  if 2 < sentences.length then
    let lengths : List ℚ := sentences.map (fun s => ((pySplitWs s).length : ℚ))
    let n : ℚ := (lengths.length : ℚ)
    let avg : ℚ := lengths.sum / n
    let variance : ℚ := (lengths.map (fun l => (l - avg) ^ 2)).sum / n
    if 0 < avg ∧ variance < (3 / 10) ^ 2 * avg ^ 2
    then [Indicator.uniformStructure] else []
  else []

/-- The paragraph-balance check of `_get_indicators` (source lines 336-340). -/
def indParaOf (t : Text) : List Indicator :=
  let paragraphs := paraSplit t
  if 2 < paragraphs.length then
    let paraLengthsN : List Nat := paragraphs.map (fun p => (pySplitWs p).length)
    if listMaxNat paraLengthsN - listMinNat paraLengthsN < 30
    then [Indicator.balancedParagraphs] else []
  else []

/-- The repetitive-opener check of `_get_indicators` (source lines 343-349).
Note the guard is `len(sentences) > 3`, strictly more than three sentences. -/
def indOpenersOf (t : Text) : List Indicator :=
  let sentences := sentSplit t
  if 3 < sentences.length then
    let starts := sentences.map firstOpener
    let maxRepeat := listMaxNat ((firstOccs starts).map (countOcc starts))
    if 2 < maxRepeat
    then [Indicator.repetitiveOpenings (argmaxFirst starts) maxRepeat]
    else []
  else []

/-- Whether an indicator is a repetitive-sentence-openings entry. -/
def isOpeningsIndicator : Indicator → Bool
  | .repetitiveOpenings _ _ => true
  | _ => false

/-- `_get_indicators` (source lines 293-354): the eight checks in their fixed
order, with the `"no strong indicators"` fallback when none triggered. -/
def get_indicators (t : Text) : List Indicator :=
  let collected := indSelfOf t ++ indHedgeOf t ++ indMetaOf t ++ indBuzzOf t ++
    indTransOf t ++ indStructOf t ++ indParaOf t ++ indOpenersOf t
  if collected.isEmpty then [Indicator.noStrong] else collected

/-! ### The aggregator (`analyze_text`, source lines 49-114) -/

/-- `_avg_sentence_length` (source lines 356-362). -/
def avg_sentence_length (t : Text) : ℚ :=
  let sentences := sentSplit t
  if sentences.isEmpty then 0
  else
    pyRound2
      ((((sentences.map (fun s => (pySplitWs s).length)).sum : Nat) : ℚ) /
        (sentences.length : ℚ))

/-- `_unique_word_ratio` (source lines 364-369). -/
def unique_word_ratio (t : Text) : ℚ :=
  let ws := wordRuns (lowerText t)
  if ws.isEmpty then 0
  else pyRound2 (((firstOccs ws).length : ℚ) / (ws.length : ℚ))

inductive Likelihood where
  | veryLow
  | low
  | medium
  | high
deriving DecidableEq

/-- The likelihood banding of `analyze_text` (source lines 82-93),
as a function of the overall 0-1 score. -/
def likelihoodBand (x : ℚ) : Likelihood :=
  if 55 / 100 ≤ x then .high
  else if 35 / 100 ≤ x then .medium
  else if 2 / 10 ≤ x then .low
  else .veryLow

/-- The fixed message of each band (source lines 84, 87, 90, 93). -/
def bandMessage : Likelihood → String
  | .high => "This text shows strong indicators of being AI-generated"
  | .medium => "This text shows moderate indicators of being AI-generated"
  | .low => "This text shows some indicators of being AI-generated"
  | .veryLow => "This text appears to be human-written"

/-- Band severity, for monotonicity statements. -/
def bandRank : Likelihood → Nat
  | .veryLow => 0
  | .low => 1
  | .medium => 2
  | .high => 3

/-- The five aggregation weights (source lines 73-79). -/
def wPattern : ℚ := 35 / 100
def wVocabulary : ℚ := 25 / 100
def wStructure : ℚ := 20 / 100
def wConsistency : ℚ := 15 / 100
def wRepetition : ℚ := 5 / 100

/-- The weighted overall score of `analyze_text` (source lines 73-79). -/
def overallScoreOf (t : Text) : ℚ :=
  check_ai_patterns t * wPattern + analyze_vocabulary t * wVocabulary +
    analyze_structure t * wStructure + analyze_consistency t * wConsistency +
    check_repetition t * wRepetition

/-- The `metrics` block of the success result (source lines 100-106). -/
structure Metrics where
  pattern_score : ℚ
  vocabulary_score : ℚ
  structure_score : ℚ
  consistency_score : ℚ
  repetition_score : ℚ
deriving DecidableEq

/-- The `statistics` block of the success result (source lines 108-113).
Note `sentence_count` is `len(re.split(r'[.!?]+', text))`: it counts the raw
split pieces, empty ones included. -/
structure Statistics where
  word_count : Nat
  sentence_count : Nat
  avg_sentence_length : ℚ
  unique_word_ratio : ℚ
deriving DecidableEq

/-- The success payload of `analyze_text` (source lines 95-114). -/
structure AnalysisSuccess where
  ai_probability : ℚ
  likelihood : Likelihood
  message : String
  metrics : Metrics
  indicators : List Indicator
  statistics : Statistics
deriving DecidableEq

/-- The success dictionary `analyze_text` builds once the length gate is
passed (source lines 95-114). -/
def mkSuccess (t : Text) : AnalysisSuccess :=
  let overall := overallScoreOf t
  { ai_probability := pyRound2 (overall * 100)
    likelihood := likelihoodBand overall
    message := bandMessage (likelihoodBand overall)
    metrics :=
      { pattern_score := pyRound2 (check_ai_patterns t * 100)
        vocabulary_score := pyRound2 (analyze_vocabulary t * 100)
        structure_score := pyRound2 (analyze_structure t * 100)
        consistency_score := pyRound2 (analyze_consistency t * 100)
        repetition_score := pyRound2 (check_repetition t * 100) }
    indicators := get_indicators t
    statistics :=
      { word_count := (pySplitWs t).length
        sentence_count := (reSplitPunct t).length
        avg_sentence_length := avg_sentence_length t
        unique_word_ratio := unique_word_ratio t } }

/-- The error message of the too-short outcome (source line 62). -/
def tooShortMsg : String :=
  "Text too short for analysis (minimum 50 characters)"

/-- The two shapes of dictionary `analyze_text` returns: `success: False`
with an error string, or `success: True` with the full payload. -/
inductive AnalysisResult where
  | failure (error : String)
  | success (result : AnalysisSuccess)
deriving DecidableEq

/-- `analyze_text` (source lines 49-114).  The gate on line 59 is
`if not text or len(text.strip()) < 50`. -/
def analyze_text (t : Text) : AnalysisResult :=
  if t = [] ∨ (pyStrip t).length < 50 then .failure tooShortMsg
  else .success (mkSuccess t)

/-! ### Named components of the pattern matcher, for stating its contract -/

/-- `pattern_matches` of `_check_ai_patterns` (source lines 122-125): how
many of the fourteen `ai_patterns` regexes match the lowercased text. -/
def patternMatchCount (t : Text) : Nat :=
  aiPatterns.countP (fun r => reSearch r (lowerText t))

/-- The transition-word contribution of `_check_ai_patterns` (source lines
132-141). -/
def transitionContribOf (t : Text) : ℚ :=
  let ws := pySplitWs (lowerText t)
  if ws.isEmpty then 0
  else
    let transitionCount : Nat :=
      ws.countP (fun w => aiTransitions.contains (stripPunct w))
    let density : ℚ := (transitionCount : ℚ) / (ws.length : ℚ)
    if 8 / 100 ≤ density then min (density * 3) (5 / 10)
    else if 5 / 100 ≤ density then 2 / 10
    else 0

/-! ### The spec's five-category pattern matcher

Spec §4.1 describes the pattern score as `min(m * 0.25, 0.8)` where `m`
counts matching *categories* out of five: (a) explicit AI self-reference,
(b) hedging phrases, (c) formulaic connectors, (d) AI-typical metaphor
clusters, (e) listicle/marketing boilerplate — each category built from the
exemplar phrases the spec names for it.  The code instead counts its
fourteen individual regexes, so two phrases of one category (say two
metaphor clusters) raise the code's count by two but the spec's by one. -/

/-- Spec category (a): explicit AI self-reference. -/
def specCatA : RE := wbWrap (altOf ["as an ai", "language model", "ai assistant"])

/-- Spec category (b): hedging phrases. -/
def specCatB : RE := wbWrap (altOf ["it's important to note"])

/-- Spec category (c): formulaic connectors. -/
def specCatC : RE := wbWrap (altOf ["in conclusion", "to summarize"])

/-- Spec category (d): AI-typical metaphor clusters. -/
def specCatD : RE := wbWrap (altOf ["delve into", "embark on"])

/-- Spec category (e): listicle/marketing boilerplate. -/
def specCatE : RE := wbWrap (altOf ["pros and cons", "cutting-edge"])

/-- The five categories of spec §4.1. -/
def specPatternCategories : List RE :=
  [specCatA, specCatB, specCatC, specCatD, specCatE]

/-- The Pattern Matcher score as spec §4.1 words it (the refinement target
claim C3 compares the code against): `m` counts matching categories out of
the five, the transition contribution and the final clamp are as in the
code. -/
def specPatternMatcherScore (t : Text) : ℚ :=
  let m : Nat := specPatternCategories.countP (fun r => reSearch r (lowerText t))
  min (min ((m : ℚ) * (25 / 100)) (8 / 10) + transitionContribOf t) 1

/-! ### Concrete inputs used by witnesses and counterexamples -/

/-- 62 characters, ends with `.`: the raw `re.split` has a trailing empty
piece, so the reported sentence count is 4 while the SentenceList has 3
entries. -/
def c2Input : Text :=
  "This is a sentence. Here is another sentence. And a third one.".data

/-- Matches exactly the two metaphor-cluster patterns `delve into` and
`embark on` (two of the code's fourteen regexes, one spec category) and has
transition density 0. -/
def c3Input : Text :=
  "We delve into the topic and then we embark on a journey of learning today".data

/-- Exactly three sentences, every opener `The`, bigram `the cat` three
times; 74 characters. -/
def c4CexInput : Text :=
  "The cat sat on the mat here. The cat sat on a rug. The cat sat on my hat.".data

/-- Four sentences, every opener `The`, bigram `the cat` four times. -/
def c4WitInput : Text :=
  "The cat sat on the mat. The cat sat on a rug. The cat sat on my hat. The cat sat on us.".data

/-- A plain long-enough input used to instantiate gate hypotheses. -/
def plainLongInput : Text :=
  "The committee reviewed the proposal carefully and approved it without any objections today.".data

/-- Five sentences of exactly fifteen whitespace-separated words each. -/
def c8Input : Text :=
  ("The quick brown fox jumps over the lazy dog near a very tall green tree. " ++
   "The quick brown fox jumps over the lazy dog near a very tall green tree. " ++
   "The quick brown fox jumps over the lazy dog near a very tall green tree. " ++
   "The quick brown fox jumps over the lazy dog near a very tall green tree. " ++
   "The quick brown fox jumps over the lazy dog near a very tall green tree.").data

/-- Contains `I'm an AI` (matching `ai_patterns[0]`) but none of the four
alternatives of the indicator's self-reference regex; 60 characters. -/
def c10Input : Text :=
  "I'm an AI and this sentence is long enough to pass the gate.".data

/-! ## Helper lemmas -/

theorem ite_le_of_le {c : Prop} [Decidable c] {a b m : ℚ} (ha : a ≤ m)
    (hb : b ≤ m) : (if c then a else b) ≤ m := by
  split_ifs <;> assumption

theorem le_ite_of_le {c : Prop} [Decidable c] {a b m : ℚ} (ha : m ≤ a)
    (hb : m ≤ b) : m ≤ if c then a else b := by
  split_ifs <;> assumption

theorem bankerRound_le {x : ℚ} {n : ℤ} (h : x ≤ (n : ℚ)) : bankerRound x ≤ n := by
  unfold bankerRound
  dsimp only
  have hf : ⌊x⌋ ≤ n := by
    have := Int.floor_le_floor h
    simpa using this
  have hfl : (⌊x⌋ : ℚ) ≤ x := Int.floor_le x
  split_ifs with h1 h2 h3
  · by_contra hc
    push_neg at hc
    have hn : n = ⌊x⌋ := le_antisymm (Int.lt_add_one_iff.mp hc) hf
    rw [hn] at h
    linarith
  · exact hf
  · exact hf
  · by_contra hc
    push_neg at hc
    have hn : n = ⌊x⌋ := le_antisymm (Int.lt_add_one_iff.mp hc) hf
    rw [hn] at h
    linarith

theorem le_bankerRound {x : ℚ} {n : ℤ} (h : (n : ℚ) ≤ x) : n ≤ bankerRound x := by
  unfold bankerRound
  dsimp only
  have hf : n ≤ ⌊x⌋ := Int.le_floor.mpr h
  split_ifs <;> omega

theorem pyRound2_le {x : ℚ} {n : ℤ} (h : x ≤ (n : ℚ)) : pyRound2 x ≤ (n : ℚ) := by
  unfold pyRound2
  have h100 : x * 100 ≤ ((100 * n : ℤ) : ℚ) := by push_cast; linarith
  have hb := bankerRound_le h100
  rw [div_le_iff₀ (by norm_num : (0 : ℚ) < 100)]
  calc ((bankerRound (x * 100) : ℤ) : ℚ) ≤ ((100 * n : ℤ) : ℚ) := by
        exact_mod_cast hb
    _ = (n : ℚ) * 100 := by push_cast; ring

theorem le_pyRound2 {x : ℚ} {n : ℤ} (h : (n : ℚ) ≤ x) : (n : ℚ) ≤ pyRound2 x := by
  unfold pyRound2
  have h100 : ((100 * n : ℤ) : ℚ) ≤ x * 100 := by push_cast; linarith
  have hb := le_bankerRound h100
  rw [le_div_iff₀ (by norm_num : (0 : ℚ) < 100)]
  calc (n : ℚ) * 100 = ((100 * n : ℤ) : ℚ) := by push_cast; ring
    _ ≤ ((bankerRound (x * 100) : ℤ) : ℚ) := by exact_mod_cast hb

theorem transitionContribOf_nonneg (t : Text) : 0 ≤ transitionContribOf t := by
  unfold transitionContribOf
  refine le_ite_of_le le_rfl (le_ite_of_le ?_ (le_ite_of_le (by norm_num) le_rfl))
  exact le_min (by positivity) (by norm_num)

theorem check_ai_patterns_le_one (t : Text) : check_ai_patterns t ≤ 1 := by
  unfold check_ai_patterns
  exact min_le_right _ _

theorem analyze_structure_le_one (t : Text) : analyze_structure t ≤ 1 := by
  unfold analyze_structure
  exact ite_le_of_le (by norm_num) (min_le_right _ _)

theorem analyze_vocabulary_le_one (t : Text) : analyze_vocabulary t ≤ 1 := by
  unfold analyze_vocabulary
  exact ite_le_of_le (by norm_num) (min_le_right _ _)

theorem analyze_consistency_le_one (t : Text) : analyze_consistency t ≤ 1 := by
  unfold analyze_consistency
  exact min_le_right _ _

theorem openerBonus_le (starts : List Text) : openerBonus starts ≤ 3 / 10 := by
  unfold openerBonus
  exact ite_le_of_le le_rfl (by norm_num)

theorem openerBonus_nonneg (starts : List Text) : 0 ≤ openerBonus starts := by
  unfold openerBonus
  exact le_ite_of_le (by norm_num) le_rfl

theorem bigramBonus_le (sentences : List Text) : bigramBonus sentences ≤ 5 / 10 := by
  unfold bigramBonus
  exact ite_le_of_le (by norm_num)
    (ite_le_of_le (min_le_right _ _) (by norm_num))

theorem bigramBonus_nonneg (sentences : List Text) : 0 ≤ bigramBonus sentences := by
  unfold bigramBonus
  refine le_ite_of_le le_rfl (le_ite_of_le ?_ le_rfl)
  exact le_min (by positivity) (by norm_num)

/-- The repetition score caps at `0.3 + 0.5 = 0.8`. -/
theorem check_repetition_le (t : Text) : check_repetition t ≤ 4 / 5 := by
  unfold check_repetition
  refine ite_le_of_le (by norm_num) ?_
  refine le_trans (min_le_left _ _) ?_
  refine le_trans (add_le_add (openerBonus_le _) (bigramBonus_le _)) ?_
  norm_num

/-- Once the gate is passed, `analyze_text` returns the success payload. -/
theorem analyze_text_success {t : Text} (h : 50 ≤ (pyStrip t).length) :
    analyze_text t = .success (mkSuccess t) := by
  unfold analyze_text
  rw [if_neg]
  rintro (rfl | hlt)
  · exact absurd h (by decide)
  · omega

theorem mkSuccess_ai_probability (t : Text) :
    (mkSuccess t).ai_probability = pyRound2 (overallScoreOf t * 100) := rfl

theorem mkSuccess_likelihood (t : Text) :
    (mkSuccess t).likelihood = likelihoodBand (overallScoreOf t) := rfl

theorem mkSuccess_message (t : Text) :
    (mkSuccess t).message = bandMessage (likelihoodBand (overallScoreOf t)) := rfl

theorem mkSuccess_metrics_structure (t : Text) :
    (mkSuccess t).metrics.structure_score =
      pyRound2 (analyze_structure t * 100) := rfl

theorem mkSuccess_metrics_repetition (t : Text) :
    (mkSuccess t).metrics.repetition_score =
      pyRound2 (check_repetition t * 100) := rfl

theorem mkSuccess_indicators (t : Text) :
    (mkSuccess t).indicators = get_indicators t := rfl

/-- `_check_ai_patterns` decomposed into its pattern count and transition
contribution (the `if pattern_matches > 0` guard of the source is redundant
because `min(0 * 0.25, 0.8) = 0`). -/
theorem check_ai_patterns_eq (t : Text) :
    check_ai_patterns t =
      min (min ((patternMatchCount t : ℚ) * (25 / 100)) (8 / 10) +
        transitionContribOf t) 1 := by
  unfold check_ai_patterns patternMatchCount transitionContribOf
  dsimp only
  rcases Nat.eq_zero_or_pos
      (aiPatterns.countP (fun r => reSearch r (lowerText t))) with h0 | hpos
  · rw [h0, if_neg (by omega)]
    norm_num
  · rw [if_pos hpos]

theorem selfRef_not_hedge (t : Text) : Indicator.selfRef ∉ indHedgeOf t := by
  unfold indHedgeOf
  split_ifs <;> simp

theorem selfRef_not_meta (t : Text) : Indicator.selfRef ∉ indMetaOf t := by
  unfold indMetaOf
  split_ifs <;> simp

theorem selfRef_not_buzz (t : Text) : Indicator.selfRef ∉ indBuzzOf t := by
  unfold indBuzzOf
  dsimp only
  split_ifs <;> simp

theorem selfRef_not_trans (t : Text) : Indicator.selfRef ∉ indTransOf t := by
  unfold indTransOf
  dsimp only
  split_ifs <;> simp

theorem selfRef_not_struct (t : Text) : Indicator.selfRef ∉ indStructOf t := by
  unfold indStructOf
  dsimp only
  split_ifs <;> simp

theorem selfRef_not_para (t : Text) : Indicator.selfRef ∉ indParaOf t := by
  unfold indParaOf
  dsimp only
  split_ifs <;> simp

theorem selfRef_not_openers (t : Text) : Indicator.selfRef ∉ indOpenersOf t := by
  unfold indOpenersOf
  dsimp only
  split_ifs <;> simp

/-! ## Claims -/

/-- C1: `analyze_text` fails with the fixed too-short message exactly when
the trimmed length of the input is below 50 characters, and otherwise
returns the full success payload. -/
theorem C1_length_gate (t : Text) :
    (analyze_text t = .failure tooShortMsg ↔ (pyStrip t).length < 50) ∧
    ((pyStrip t).length < 50 ∨ analyze_text t = .success (mkSuccess t)) := by
  unfold analyze_text
  by_cases hc : t = [] ∨ (pyStrip t).length < 50
  · have hl : (pyStrip t).length < 50 := by
      rcases hc with rfl | h
      · decide
      · exact h
    rw [if_pos hc]
    exact ⟨⟨fun _ => hl, fun _ => rfl⟩, Or.inl hl⟩
  · push_neg at hc
    rw [if_neg (by rintro (rfl | hlt); exacts [hc.1 rfl, by omega])]
    exact ⟨⟨(fun hcontra => nomatch hcontra), fun hl => absurd hl (by omega)⟩,
      Or.inr rfl⟩

/-- C7: the consistency analyzer's punctuation bonus is awarded at most
once, with narrow-band precedence: `0.5` on `[0.08, 0.15]`, else `0.25` on
`[0.05, 0.18]`, else `0`; the two bonuses are never combined (the bonus is
never `0.75`). -/
theorem C7_punctuation_bonus (t : Text) :
    analyze_consistency t = min (punctBonus (punctDensityOf t) + paraBonusOf t) 1 ∧
    (8 / 100 ≤ punctDensityOf t ∧ punctDensityOf t ≤ 15 / 100 →
      punctBonus (punctDensityOf t) = 5 / 10) ∧
    (¬(8 / 100 ≤ punctDensityOf t ∧ punctDensityOf t ≤ 15 / 100) ∧
        (5 / 100 ≤ punctDensityOf t ∧ punctDensityOf t ≤ 18 / 100) →
      punctBonus (punctDensityOf t) = 25 / 100) ∧
    (¬(5 / 100 ≤ punctDensityOf t ∧ punctDensityOf t ≤ 18 / 100) →
      punctBonus (punctDensityOf t) = 0) ∧
    (punctBonus (punctDensityOf t) = 0 ∨ punctBonus (punctDensityOf t) = 25 / 100 ∨
      punctBonus (punctDensityOf t) = 5 / 10) := by
  refine ⟨rfl, ?_, ?_, ?_, ?_⟩
  · intro hn
    unfold punctBonus
    rw [if_pos hn]
  · rintro ⟨hn, hw⟩
    unfold punctBonus
    rw [if_neg hn, if_pos hw]
  · intro hw
    unfold punctBonus
    rw [if_neg, if_neg hw]
    rintro ⟨h1, h2⟩
    exact hw ⟨by linarith, by linarith⟩
  · unfold punctBonus
    split_ifs <;> simp

/-- C9: the repetition score is at most `0.8`, so the reported repetition
metric is at most `80` and the overall probability at most `99`; a reported
probability of `100` is unreachable. -/
theorem C9_probability_cap (t : Text) (h : 50 ≤ (pyStrip t).length) :
    analyze_text t = .success (mkSuccess t) ∧
    check_repetition t ≤ 4 / 5 ∧
    (mkSuccess t).metrics.repetition_score ≤ 80 ∧
    (mkSuccess t).ai_probability ≤ 99 ∧
    (mkSuccess t).ai_probability ≠ 100 := by
  have hr := check_repetition_le t
  have hrm : (mkSuccess t).metrics.repetition_score ≤ 80 := by
    rw [mkSuccess_metrics_repetition]
    have h80 : check_repetition t * 100 ≤ ((80 : ℤ) : ℚ) := by
      push_cast
      linarith
    exact_mod_cast pyRound2_le h80
  have hov : overallScoreOf t ≤ 99 / 100 := by
    have hp := check_ai_patterns_le_one t
    have hv := analyze_vocabulary_le_one t
    have hs := analyze_structure_le_one t
    have hc := analyze_consistency_le_one t
    unfold overallScoreOf wPattern wVocabulary wStructure wConsistency wRepetition
    linarith
  have hprob : (mkSuccess t).ai_probability ≤ 99 := by
    rw [mkSuccess_ai_probability]
    have h99 : overallScoreOf t * 100 ≤ ((99 : ℤ) : ℚ) := by
      push_cast
      linarith
    exact_mod_cast pyRound2_le h99
  exact ⟨analyze_text_success h, hr, hrm, hprob, by intro heq; rw [heq] at hprob; norm_num at hprob⟩

/-- C9 witness: the cap holds at a concrete gate-passing input. -/
theorem C9_probability_cap_witness :
    analyze_text plainLongInput = .success (mkSuccess plainLongInput) ∧
    check_repetition plainLongInput ≤ 4 / 5 ∧
    (mkSuccess plainLongInput).metrics.repetition_score ≤ 80 ∧
    (mkSuccess plainLongInput).ai_probability ≤ 99 ∧
    (mkSuccess plainLongInput).ai_probability ≠ 100 :=
  C9_probability_cap plainLongInput (by decide)

/-- C5: past the gate, the overall score is the fixed weighted sum of the
five analyzer scores, the weights sum to exactly `1`, and the probability
and every per-metric breakdown are independently rounded to two decimals
after scaling to percent. -/
theorem C5_weighted_aggregate (t : Text) (h : 50 ≤ (pyStrip t).length) :
    analyze_text t = .success (mkSuccess t) ∧
    (mkSuccess t).ai_probability =
      pyRound2 ((0.35 * check_ai_patterns t + 0.25 * analyze_vocabulary t +
        0.20 * analyze_structure t + 0.15 * analyze_consistency t +
        0.05 * check_repetition t) * 100) ∧
    (mkSuccess t).metrics.pattern_score = pyRound2 (check_ai_patterns t * 100) ∧
    (mkSuccess t).metrics.vocabulary_score =
      pyRound2 (analyze_vocabulary t * 100) ∧
    (mkSuccess t).metrics.structure_score =
      pyRound2 (analyze_structure t * 100) ∧
    (mkSuccess t).metrics.consistency_score =
      pyRound2 (analyze_consistency t * 100) ∧
    (mkSuccess t).metrics.repetition_score =
      pyRound2 (check_repetition t * 100) ∧
    wPattern + wVocabulary + wStructure + wConsistency + wRepetition = 1 := by
  refine ⟨analyze_text_success h, ?_, rfl, rfl, rfl, rfl, rfl, by
    norm_num [wPattern, wVocabulary, wStructure, wConsistency, wRepetition]⟩
  rw [mkSuccess_ai_probability]
  congr 1
  unfold overallScoreOf wPattern wVocabulary wStructure wConsistency wRepetition
  norm_num
  ring

/-- C5 witness: the aggregate contract at a concrete gate-passing input. -/
theorem C5_weighted_aggregate_witness :
    analyze_text c2Input = .success (mkSuccess c2Input) ∧
    (mkSuccess c2Input).ai_probability =
      pyRound2 ((0.35 * check_ai_patterns c2Input +
        0.25 * analyze_vocabulary c2Input + 0.20 * analyze_structure c2Input +
        0.15 * analyze_consistency c2Input +
        0.05 * check_repetition c2Input) * 100) ∧
    (mkSuccess c2Input).metrics.pattern_score =
      pyRound2 (check_ai_patterns c2Input * 100) ∧
    (mkSuccess c2Input).metrics.vocabulary_score =
      pyRound2 (analyze_vocabulary c2Input * 100) ∧
    (mkSuccess c2Input).metrics.structure_score =
      pyRound2 (analyze_structure c2Input * 100) ∧
    (mkSuccess c2Input).metrics.consistency_score =
      pyRound2 (analyze_consistency c2Input * 100) ∧
    (mkSuccess c2Input).metrics.repetition_score =
      pyRound2 (check_repetition c2Input * 100) ∧
    wPattern + wVocabulary + wStructure + wConsistency + wRepetition = 1 :=
  C5_weighted_aggregate c2Input (by decide)

/-- C6: past the gate, the likelihood band comes from the overall score via
the inclusive thresholds `0.55 / 0.35 / 0.20`, the message is the band's
fixed message, and the band is a non-decreasing function of the score. -/
theorem C6_band_monotone (t : Text) (h : 50 ≤ (pyStrip t).length) :
    analyze_text t = .success (mkSuccess t) ∧
    (mkSuccess t).likelihood = likelihoodBand (overallScoreOf t) ∧
    (mkSuccess t).message = bandMessage ((mkSuccess t).likelihood) ∧
    (∀ x : ℚ,
      (likelihoodBand x = .high ↔ 55 / 100 ≤ x) ∧
      (likelihoodBand x = .medium ↔ 35 / 100 ≤ x ∧ x < 55 / 100) ∧
      (likelihoodBand x = .low ↔ 2 / 10 ≤ x ∧ x < 35 / 100) ∧
      (likelihoodBand x = .veryLow ↔ x < 2 / 10)) ∧
    (∀ x y : ℚ, x ≤ y →
      bandRank (likelihoodBand x) ≤ bandRank (likelihoodBand y)) := by
  refine ⟨analyze_text_success h, rfl, rfl, ?_, ?_⟩
  · intro x
    unfold likelihoodBand
    split_ifs with h1 h2 h3
    · exact ⟨iff_of_true rfl h1,
        iff_of_false (by simp) (fun hh => absurd h1 (not_le.mpr hh.2)),
        iff_of_false (by simp)
          (fun hh => absurd h1 (not_le.mpr (lt_of_lt_of_le hh.2 (by norm_num)))),
        iff_of_false (by simp)
          (fun hh => absurd h1 (not_le.mpr (lt_of_lt_of_le hh (by norm_num))))⟩
    · exact ⟨iff_of_false (by simp) h1,
        iff_of_true rfl ⟨h2, not_le.mp h1⟩,
        iff_of_false (by simp) (fun hh => absurd h2 (not_le.mpr hh.2)),
        iff_of_false (by simp)
          (fun hh => absurd h2 (not_le.mpr (lt_of_lt_of_le hh (by norm_num))))⟩
    · exact ⟨iff_of_false (by simp) h1,
        iff_of_false (by simp) (fun hh => h2 hh.1),
        iff_of_true rfl ⟨h3, not_le.mp h2⟩,
        iff_of_false (by simp) (fun hh => absurd h3 (not_le.mpr hh))⟩
    · exact ⟨iff_of_false (by simp) h1,
        iff_of_false (by simp) (fun hh => h2 hh.1),
        iff_of_false (by simp) (fun hh => h3 hh.1),
        iff_of_true rfl (not_le.mp h3)⟩
  · intro x y hxy
    unfold likelihoodBand
    split_ifs <;> first | decide | (exfalso; linarith)

set_option maxRecDepth 40000 in
/-- C6 witness: the banding contract at a concrete gate-passing input. -/
theorem C6_band_monotone_witness :
    analyze_text c8Input = .success (mkSuccess c8Input) ∧
    (mkSuccess c8Input).likelihood = likelihoodBand (overallScoreOf c8Input) ∧
    (mkSuccess c8Input).message = bandMessage ((mkSuccess c8Input).likelihood) ∧
    (∀ x : ℚ,
      (likelihoodBand x = .high ↔ 55 / 100 ≤ x) ∧
      (likelihoodBand x = .medium ↔ 35 / 100 ≤ x ∧ x < 55 / 100) ∧
      (likelihoodBand x = .low ↔ 2 / 10 ≤ x ∧ x < 35 / 100) ∧
      (likelihoodBand x = .veryLow ↔ x < 2 / 10)) ∧
    (∀ x y : ℚ, x ≤ y →
      bandRank (likelihoodBand x) ≤ bandRank (likelihoodBand y)) :=
  C6_band_monotone c8Input (by decide)

/-- C2 counterexample: for this gate-passing input ending in `.`, the
reported sentence count is 4 (raw `re.split` pieces, one of them empty)
while the SentenceList of non-empty trimmed splits has 3 entries. -/
theorem C2_sentence_count_cex :
    50 ≤ (pyStrip c2Input).length ∧
    analyze_text c2Input = .success (mkSuccess c2Input) ∧
    (mkSuccess c2Input).statistics.sentence_count = 4 ∧
    (sentSplit c2Input).length = 3 :=
  ⟨by decide, analyze_text_success (by decide), by decide, by decide⟩

/-- C2 (amended): the reported sentence count is the length of the raw
`re.split(r'[.!?]+', text)` list, empty pieces included — at least the
SentenceList length, not equal to it in general; the average sentence
length is total words over the non-empty trimmed sentences, rounded to two
decimals, `0` when there are none. -/
theorem C2_statistics (t : Text) (h : 50 ≤ (pyStrip t).length) :
    analyze_text t = .success (mkSuccess t) ∧
    (mkSuccess t).statistics.sentence_count = (reSplitPunct t).length ∧
    (sentSplit t).length ≤ (mkSuccess t).statistics.sentence_count ∧
    (mkSuccess t).statistics.avg_sentence_length =
      (if (sentSplit t).isEmpty then 0
       else pyRound2
         ((((sentSplit t).map (fun s => (pySplitWs s).length)).sum : ℚ) /
           ((sentSplit t).length : ℚ))) := by
  refine ⟨analyze_text_success h, rfl, ?_, rfl⟩
  show (sentSplit t).length ≤ (reSplitPunct t).length
  calc (sentSplit t).length ≤ ((reSplitPunct t).map pyStrip).length :=
        List.length_filter_le _ _
    _ = (reSplitPunct t).length := List.length_map _ _

/-- C2 witness: the amended statistics contract at a concrete input. -/
theorem C2_statistics_witness :
    analyze_text c4WitInput = .success (mkSuccess c4WitInput) ∧
    (mkSuccess c4WitInput).statistics.sentence_count =
      (reSplitPunct c4WitInput).length ∧
    (sentSplit c4WitInput).length ≤
      (mkSuccess c4WitInput).statistics.sentence_count ∧
    (mkSuccess c4WitInput).statistics.avg_sentence_length =
      (if (sentSplit c4WitInput).isEmpty then 0
       else pyRound2
         ((((sentSplit c4WitInput).map (fun s => (pySplitWs s).length)).sum : ℚ) /
           ((sentSplit c4WitInput).length : ℚ))) :=
  C2_statistics c4WitInput (by decide)

set_option maxRecDepth 40000 in
/-- C3 counterexample: this text matches two of the code's fourteen
patterns (`delve into`, `embark on`) but only one of the spec's five
categories (metaphor clusters), so the code's score is `0.5` while the
claimed `min(m * 0.25, 0.8)` over five categories gives `0.25`. -/
theorem C3_category_count_cex :
    patternMatchCount c3Input = 2 ∧
    check_ai_patterns c3Input = 1 / 2 ∧
    specPatternMatcherScore c3Input = 1 / 4 ∧
    check_ai_patterns c3Input ≠ specPatternMatcherScore c3Input :=
  ⟨by decide, by with_unfolding_all decide, by with_unfolding_all decide,
    by with_unfolding_all decide⟩

/-- C3 (amended): the pattern score is `min(m * 0.25, 0.8)` plus the
transition contribution, clamped to `1`, where `m` counts the code's
fourteen individual `AI_PATTERNS` regexes that match (not the spec's five
coarser categories); an empty word list makes the transition contribution
`0`. -/
theorem C3_pattern_score (t : Text) :
    check_ai_patterns t =
      min (min ((patternMatchCount t : ℚ) * (25 / 100)) (8 / 10) +
        transitionContribOf t) 1 ∧
    (pySplitWs (lowerText t) = [] → transitionContribOf t = 0) := by
  refine ⟨check_ai_patterns_eq t, ?_⟩
  intro hw
  unfold transitionContribOf
  simp [hw]

/-- C8: any gate-passing input splitting into five sentences of exactly
fifteen words each gets the full structure score: zero length variance hits
the `cv < 0.30` band (`+0.6`) and every sentence is in the 12-20-word band
(`+0.4`), so the structure metric is `100`.  (The score depends only on the
sentence split, so no buzzword or pattern hypothesis is needed.) -/
theorem C8_uniform_structure (t : Text) (h : 50 ≤ (pyStrip t).length)
    (hs : (sentSplit t).map (fun s => (pySplitWs s).length) =
      [15, 15, 15, 15, 15]) :
    analyze_structure t = 1 ∧ analyze_text t = .success (mkSuccess t) ∧
    (mkSuccess t).metrics.structure_score = 100 := by
  have hlen : (sentSplit t).length = 5 := by simpa using congrArg List.length hs
  have hstruct : analyze_structure t = 1 := by
    unfold analyze_structure
    dsimp only
    rw [hs, hlen]
    with_unfolding_all decide
  refine ⟨hstruct, analyze_text_success h, ?_⟩
  rw [mkSuccess_metrics_structure, hstruct]
  with_unfolding_all decide

set_option maxRecDepth 100000 in
/-- C8 witness: five concrete fifteen-word sentences score structure 100. -/
theorem C8_uniform_structure_witness :
    analyze_structure c8Input = 1 ∧
    analyze_text c8Input = .success (mkSuccess c8Input) ∧
    (mkSuccess c8Input).metrics.structure_score = 100 :=
  C8_uniform_structure c8Input (by decide) (by decide)

/-- C10: any gate-passing text matching `ai_patterns[0]` (e.g. through its
`I'm an AI` alternative) but not the indicator regex (which lacks that
alternative) raises the pattern score by at least `0.25`, yet the indicator
list carries no explicit-self-reference entry. -/
theorem C10_self_reference_gap (t : Text) (hgate : 50 ≤ (pyStrip t).length)
    (hpat : reSearch aiPat1 (lowerText t) = true)
    (hind : reSearch indSelfRefRE (lowerText t) = false) :
    1 ≤ patternMatchCount t ∧ 1 / 4 ≤ check_ai_patterns t ∧
    Indicator.selfRef ∉ (mkSuccess t).indicators := by
  have hcount : 1 ≤ patternMatchCount t := by
    unfold patternMatchCount
    have hpos : 0 < aiPatterns.countP (fun r => reSearch r (lowerText t)) :=
      List.countP_pos.mpr ⟨aiPat1, by simp [aiPatterns], hpat⟩
    omega
  refine ⟨hcount, ?_, ?_⟩
  · rw [check_ai_patterns_eq]
    refine le_min
      (le_trans ?_ (le_add_of_nonneg_right (transitionContribOf_nonneg t)))
      (by norm_num)
    refine le_min ?_ (by norm_num)
    have h1 : (1 : ℚ) ≤ (patternMatchCount t : ℚ) := by exact_mod_cast hcount
    linarith
  · rw [mkSuccess_indicators]
    unfold get_indicators
    dsimp only
    have hself : indSelfOf t = [] := by simp [indSelfOf, hind]
    intro hmem
    split_ifs at hmem with hco
    · simp at hmem
    · simp only [hself, List.nil_append, List.mem_append] at hmem
      rcases hmem with ((((((h | h) | h) | h) | h) | h) | h)
      · exact selfRef_not_hedge t h
      · exact selfRef_not_meta t h
      · exact selfRef_not_buzz t h
      · exact selfRef_not_trans t h
      · exact selfRef_not_struct t h
      · exact selfRef_not_para t h
      · exact selfRef_not_openers t h

set_option maxRecDepth 40000 in
/-- C10 witness: a concrete text containing `I'm an AI` and none of the
indicator regex's alternatives. -/
theorem C10_self_reference_gap_witness :
    1 ≤ patternMatchCount c10Input ∧ 1 / 4 ≤ check_ai_patterns c10Input ∧
    Indicator.selfRef ∉ (mkSuccess c10Input).indicators :=
  C10_self_reference_gap c10Input (by decide) (by decide) (by decide)

set_option maxRecDepth 40000 in
/-- C4 counterexample: a gate-passing input with exactly three sentences
all opening with `The` and a bigram occurring three times; the repetition
metric is positive but no repetitive-openings indicator is emitted, because
the reporter requires strictly more than three sentences. -/
theorem C4_three_sentences_cex :
    50 ≤ (pyStrip c4CexInput).length ∧
    (sentSplit c4CexInput).map firstOpener =
      ["the".data, "the".data, "the".data] ∧
    3 ≤ countOcc (allBigramsOf c4CexInput) "the cat".data ∧
    0 < (mkSuccess c4CexInput).metrics.repetition_score ∧
    (mkSuccess c4CexInput).indicators.all
      (fun i => !isOpeningsIndicator i) = true :=
  ⟨by decide, by decide, by decide, by with_unfolding_all decide,
    by with_unfolding_all decide⟩

/-- C4 (amended): with *four* sentences (the reporter's guard is
`len(sentences) > 3`) all opening with `the` and a bigram repeated three
times, the repetition metric is positive and the indicator list contains
the repetitive-openings entry naming `the` and its count 4. -/
theorem C4_repetitive_openings (t : Text) (hgate : 50 ≤ (pyStrip t).length)
    (hop : (sentSplit t).map firstOpener =
      ["the".data, "the".data, "the".data, "the".data])
    (hbg : ∃ b, 3 ≤ countOcc (allBigramsOf t) b) :
    analyze_text t = .success (mkSuccess t) ∧
    0 < (mkSuccess t).metrics.repetition_score ∧
    Indicator.repetitiveOpenings "the".data 4 ∈ (mkSuccess t).indicators := by
  have hlen : (sentSplit t).length = 4 := by simpa using congrArg List.length hop
  have hrep : 3 / 10 ≤ check_repetition t := by
    unfold check_repetition
    dsimp only
    rw [hlen, if_neg (by norm_num), hop]
    have hob : openerBonus ["the".data, "the".data, "the".data, "the".data] =
        3 / 10 := by with_unfolding_all decide
    rw [hob]
    refine le_min ?_ (by norm_num)
    have hb := bigramBonus_nonneg (sentSplit t)
    linarith
  have hmet : 0 < (mkSuccess t).metrics.repetition_score := by
    rw [mkSuccess_metrics_repetition]
    have h30 : ((30 : ℤ) : ℚ) ≤ check_repetition t * 100 := by
      push_cast
      linarith
    have h30' := le_pyRound2 h30
    push_cast at h30'
    linarith
  have hOpen : indOpenersOf t =
      [Indicator.repetitiveOpenings "the".data 4] := by
    unfold indOpenersOf
    dsimp only
    rw [hlen, if_pos (by norm_num), hop]
    decide
  refine ⟨analyze_text_success hgate, hmet, ?_⟩
  rw [mkSuccess_indicators]
  unfold get_indicators
  dsimp only
  have hmem : Indicator.repetitiveOpenings "the".data 4 ∈
      indSelfOf t ++ indHedgeOf t ++ indMetaOf t ++ indBuzzOf t ++
        indTransOf t ++ indStructOf t ++ indParaOf t ++ indOpenersOf t := by
    rw [hOpen]
    simp [List.mem_append]
  rw [if_neg]
  · exact hmem
  · intro hco
    simp only [List.isEmpty_iff] at hco
    exact List.ne_nil_of_mem hmem hco

set_option maxRecDepth 40000 in
/-- C4 witness: four concrete `The`-opening sentences with `the cat`
repeated four times. -/
theorem C4_repetitive_openings_witness :
    analyze_text c4WitInput = .success (mkSuccess c4WitInput) ∧
    0 < (mkSuccess c4WitInput).metrics.repetition_score ∧
    Indicator.repetitiveOpenings "the".data 4 ∈
      (mkSuccess c4WitInput).indicators :=
  C4_repetitive_openings c4WitInput (by decide) (by decide)
    ⟨"the cat".data, by decide⟩

end AIDetect
